import Mathlib

/-!
# Proteinking — intake aggregation and food-caching subsystem

A shallow embedding of the repository's `api` app (models.py, services.py,
views.py, serializers.py), faithful to the Python source. Float-valued
model fields are embedded as `ℚ` (the claims under check are exact
arithmetic identities of the source's formulas). Django ORM state is
embedded as explicit record-of-lists state threaded through the
operations; each embedded operation mirrors one source code path.
-/

/-! ## Data model (src/api/models.py) -/

/-- A `FoodItem` row (models.py lines 5–23): external `fdc_id`, display
name, brand label (the source column is nullable but every write through
the cache path stores a string, `''` when absent), and five per-100g
nutrient densities. -/
structure FoodItem where
  fdc_id : String
  name : String
  brand_owner : String
  protein_per_100g : ℚ
  calories_per_100g : ℚ
  carbs_per_100g : ℚ
  fat_per_100g : ℚ
  fiber_per_100g : ℚ
deriving DecidableEq, Repr

/-- The `UserProfile` row (models.py lines 25–55): the field this development
needs is the daily protein goal. -/
structure UserProfile where
  daily_protein_goal : ℚ
deriving DecidableEq, Repr

/-- A Django `User` as seen by `DailyIntake.protein_percentage`
(models.py line 74): the reverse one-to-one `userprofile` accessor, which
may be absent — `hasattr(self.user, 'userprofile')`. -/
structure UserAccount where
  userprofile : Option UserProfile
deriving DecidableEq, Repr

/-- A `DailyIntake` row (models.py lines 57–80): owning user and the two
denormalized running totals. -/
structure DailyIntake where
  user : UserAccount
  total_protein : ℚ
  total_calories : ℚ
deriving DecidableEq, Repr

/-- Method `DailyIntake.protein_percentage` (models.py lines 71–77): 0 when the
user has no profile; else `total_protein / goal * 100` when the goal is
positive, 0 otherwise. -/
def DailyIntake.protein_percentage (d : DailyIntake) : ℚ :=
  match d.user.userprofile with
  | some profile =>
      if profile.daily_protein_goal > 0 then
        d.total_protein / profile.daily_protein_goal * 100
      else 0
  | none => 0

/-- A `FoodEntry` row (models.py lines 82–103): the consumed food item, the
amount in grams, and the two derived consumed quantities. -/
structure FoodEntry where
  food_item : FoodItem
  amount_grams : ℚ
  protein_consumed : ℚ
  calories_consumed : ℚ
deriving DecidableEq, Repr

/-- The persisted state of one `DailyIntake` together with its
`entries` reverse relation: the rows `self.daily_intake.entries.all()`
returns, and the two stored totals. -/
structure DayState where
  entries : List FoodEntry
  total_protein : ℚ
  total_calories : ℚ
deriving DecidableEq, Repr

/-- The derived-cache invariant of the spec: the stored totals equal the
sums of the consumed quantities over the currently-existing entries. -/
def DayState.totalsConsistent (s : DayState) : Prop :=
  s.total_protein = (s.entries.map FoodEntry.protein_consumed).sum ∧
  s.total_calories = (s.entries.map FoodEntry.calories_consumed).sum

instance (s : DayState) : Decidable s.totalsConsistent := by
  unfold DayState.totalsConsistent
  infer_instance

/-- The recomputation step at the top of `FoodEntry.save` (models.py
lines 110–111): the consumed fields are overwritten from the food item's
current densities and the amount, whatever values they held. -/
def FoodEntry.recompute (e : FoodEntry) : FoodEntry :=
  { e with
    protein_consumed := e.food_item.protein_per_100g * e.amount_grams / 100
    calories_consumed := e.food_item.calories_per_100g * e.amount_grams / 100 }

/-- Method `FoodEntry.save` (models.py lines 108–121) on the entry-creation
path: recompute the consumed fields, persist the row (`super().save()`),
then set both totals to the full sums over all existing entries and
persist the `DailyIntake`. -/
def FoodEntry.save (s : DayState) (e : FoodEntry) : DayState :=
  let entries := e.recompute :: s.entries
  { entries := entries
    total_protein := (entries.map FoodEntry.protein_consumed).sum
    total_calories := (entries.map FoodEntry.calories_consumed).sum }

/-- The failure path of `FoodEntry.save` in which `daily_intake.save()`
(models.py line 121) raises after `super().save()` (line 112) has already
committed: the source wraps the two writes in no transaction, so the
entry row is durable and the totals are the pre-mutation values. -/
def FoodEntry.saveTotalsWriteFails (s : DayState) (e : FoodEntry) : DayState :=
  { s with entries := e.recompute :: s.entries }

/-- Deletion of a `FoodEntry` through the ORM (exposed by the registered
`FoodEntryAdmin`, admin.py lines 18–21): the repository defines no
`delete` override, signal handler, or view for `FoodEntry`, so Django's
stock delete removes the row only — the owning `DailyIntake`'s totals
are not recomputed. -/
def DayState.ormDelete (s : DayState) (i : Nat) : DayState :=
  { s with entries := s.entries.eraseIdx i }

/-- Django's `MinValueValidator(limit)` accepts exactly the values
`≥ limit`. -/
def minValueValidator (limit value : ℚ) : Bool :=
  decide (limit ≤ value)

/-- The `amount_grams` field validator `MinValueValidator(0.1)`
(models.py line 88), as run by `FoodEntrySerializer` validation
(serializers.py lines 29–41) before any write. -/
def amount_grams_ok (value : ℚ) : Bool :=
  minValueValidator (1 / 10) value

/-- Modelled from the spec: `log_entry` (IntakeLedger, spec §4.4) has no
function of its own under src/ — only its two halves exist there: the
`amount_grams` validator (models.py line 88, run by serializer
validation before any write) and `FoodEntry.save` (models.py lines
108–121). Per the spec, validation failure rejects the request before
any write with no partial state change; otherwise the entry is persisted
via `FoodEntry.save`. -/
def log_entry (s : DayState) (item : FoodItem) (amount : ℚ) :
    Option FoodEntry × DayState :=
  if amount_grams_ok amount then
    let e : FoodEntry :=
      { food_item := item, amount_grams := amount
        protein_consumed := 0, calories_consumed := 0 }
    (some e.recompute, FoodEntry.save s e)
  else (none, s)

/-! ## External-source normalization (src/api/services.py, FoodAPIService) -/

/-- The five nutrients the source's `nutrient_mapping` (services.py lines
126–132) recognises. -/
inductive NutrientKey where
  | protein
  | calories
  | carbs
  | fat
  | fiber
deriving DecidableEq, Repr

/-- The dict `nutrient_mapping` (services.py lines 126–132): USDA nutrient id to
model field. Unlisted ids are skipped by the loop. -/
def nutrient_mapping : String → Option NutrientKey
  | "1003" => some .protein
  | "1008" => some .calories
  | "1005" => some .carbs
  | "1004" => some .fat
  | "1079" => some .fiber
  | _ => none

/-- One element of the raw payload's `foodNutrients` list: the nested
nutrient id (already stringified, as `str(...get('id', ''))` does), the
`amount` (absent key and JSON `null`/`0` all land on 0 via
`float(amount or 0)`), and the nested `unitName`. -/
structure RawNutrient where
  id : String
  amount : Option ℚ
  unitName : String
deriving DecidableEq, Repr

/-- A raw external record as `_format_food_data` reads it: the `fdcId`,
`description` and `brandOwner` keys may be absent (`dict.get` defaults),
plus the `foodNutrients` list. -/
structure RawFood where
  fdcId : Option String
  description : Option String
  brandOwner : Option String
  foodNutrients : List RawNutrient
deriving DecidableEq, Repr

/-- The `nutrients` dict the loop at services.py lines 134–145 builds:
each recognised key either set or still absent. -/
structure NutrientAcc where
  protein : Option ℚ
  calories : Option ℚ
  carbs : Option ℚ
  fat : Option ℚ
  fiber : Option ℚ
deriving DecidableEq, Repr

/-- The empty `nutrients = {}` dict (services.py line 122). -/
def NutrientAcc.empty : NutrientAcc :=
  ⟨none, none, none, none, none⟩

/-- Assignment `nutrients[nutrient_name] = ...`: set one key. -/
def NutrientAcc.set (acc : NutrientAcc) (k : NutrientKey) (v : ℚ) : NutrientAcc :=
  match k with
  | .protein => { acc with protein := some v }
  | .calories => { acc with calories := some v }
  | .carbs => { acc with carbs := some v }
  | .fat => { acc with fat := some v }
  | .fiber => { acc with fiber := some v }

/-- Lookup `nutrients.get(key)`: read one key. -/
def NutrientAcc.get (acc : NutrientAcc) (k : NutrientKey) : Option ℚ :=
  match k with
  | .protein => acc.protein
  | .calories => acc.calories
  | .carbs => acc.carbs
  | .fat => acc.fat
  | .fiber => acc.fiber

/-- Python `str.upper()` (services.py line 141), per code point. -/
def pyUpper (s : String) : String :=
  ⟨s.toList.map Char.toUpper⟩

/-- One iteration of the nutrient loop (services.py lines 134–145): skip
unmapped ids; otherwise read `amount` (`float(amount or 0)`), uppercase
the unit, and store the value when `unit == 'KCAL'` and the mapped name
is `calories`, or — the `elif` — whenever `unit == 'G'`. Every other
unit tag leaves the dict untouched. -/
def processNutrient (acc : NutrientAcc) (n : RawNutrient) : NutrientAcc :=
  match nutrient_mapping n.id with
  | none => acc
  | some key =>
      let amount := n.amount.getD 0
      let unit := pyUpper n.unitName
      if unit = "KCAL" ∧ key = .calories then acc.set key amount
      else if unit = "G" then acc.set key amount
      else acc

/-- Python's `str.title()` (services.py line 115), on the ASCII-alpha
approximation: an alphabetic character is uppercased after a
non-alphabetic (or initial) position and lowercased otherwise. Length is
preserved, which is all the claims use. -/
def pyTitleGo : List Char → Bool → List Char
  | [], _ => []
  | c :: cs, prevAlpha =>
      if c.isAlpha then
        (if prevAlpha then c.toLower else c.toUpper) :: pyTitleGo cs true
      else c :: pyTitleGo cs false

/-- Python `str.title()` on a whole string. -/
def pyTitle (s : String) : String :=
  ⟨pyTitleGo s.toList false⟩

/-- Python slicing `s[:n]` by code points. -/
def pySlice (s : String) (n : Nat) : String :=
  ⟨s.toList.take n⟩

/-- Python `str.strip()` (services.py line 33): drop whitespace from both
ends. -/
def pyStrip (s : String) : String :=
  ⟨((s.toList.dropWhile Char.isWhitespace).reverse.dropWhile
      Char.isWhitespace).reverse⟩

/-- The normalized record `_format_food_data` returns — the dict at
services.py lines 148–157, shaped like the `FoodItem` columns. -/
structure FoodData where
  fdc_id : String
  name : String
  brand_owner : String
  protein_per_100g : ℚ
  calories_per_100g : ℚ
  carbs_per_100g : ℚ
  fat_per_100g : ℚ
  fiber_per_100g : ℚ
deriving DecidableEq, Repr

/-- Method `FoodAPIService._format_food_data` (services.py lines 101–163):
stringify/default the identifier, title-case the (defaulted) name, read
the brand; drop the record (`return None`) when identifier or name is
empty; otherwise fold the nutrient loop and assemble the dict with each
nutrient defaulted to 0, the name truncated to 200, and the brand
truncated to 200 or `''` when falsy. -/
def formatFoodData (food : RawFood) : Option FoodData :=
  let fdc_id := food.fdcId.getD ""
  let name := pyTitle (food.description.getD "")
  let brand_owner := food.brandOwner.getD ""
  if fdc_id = "" ∨ name = "" then none
  else
    let nutrients := food.foodNutrients.foldl processNutrient NutrientAcc.empty
    some
      { fdc_id := fdc_id
        name := pySlice name 200
        brand_owner := if brand_owner = "" then "" else pySlice brand_owner 200
        protein_per_100g := (nutrients.get .protein).getD 0
        calories_per_100g := (nutrients.get .calories).getD 0
        carbs_per_100g := (nutrients.get .carbs).getD 0
        fat_per_100g := (nutrients.get .fat).getD 0
        fiber_per_100g := (nutrients.get .fiber).getD 0 }

/-- Outcome of the HTTP round-trip inside `search_foods` (services.py
lines 48–69): either a parsed payload's `foods` list, or any
`RequestException` / unexpected exception (unreachable provider,
malformed payload), which the source catches, logs, and turns into an
empty result. -/
inductive ApiOutcome where
  | success (foods : List RawFood)
  | failure
deriving DecidableEq, Repr

/-- Method `FoodAPIService.search_foods` (services.py lines 22–69). The second
component instruments the embedding with the number of external HTTP
requests issued (0 or 1): the guard `len(query.strip()) < 2` returns
before any request; otherwise one request is made, and on failure the
caught-exception paths return `[]`. On success each raw record is pushed
through `_format_food_data`, dropped records (`None`) excluded; one
record mapping to `None` never aborts the loop over the rest. -/
def search_foods (query : String) (outcome : ApiOutcome) :
    List FoodData × Nat :=
  if (pyStrip query).length < 2 then ([], 0)
  else
    match outcome with
    | .failure => ([], 1)
    | .success foods => (foods.filterMap formatFoodData, 1)

/-! ## Local cache upsert (src/api/services.py, FoodCacheService) -/

/-- The `FoodItem` table plus an instrumentation counter of row writes
(INSERTs from `get_or_create`, UPDATEs from `food_item.save()`). -/
structure CatalogState where
  items : List FoodItem
  writes : Nat
deriving DecidableEq, Repr

/-- The diff check of the update path (services.py lines 197–201), as a
proposition: the row already agrees with the incoming dict on every
non-identifier field, so `updated` stays `False`. -/
def dataMatches (it : FoodItem) (d : FoodData) : Prop :=
  it.name = d.name ∧ it.brand_owner = d.brand_owner ∧
  it.protein_per_100g = d.protein_per_100g ∧
  it.calories_per_100g = d.calories_per_100g ∧
  it.carbs_per_100g = d.carbs_per_100g ∧
  it.fat_per_100g = d.fat_per_100g ∧
  it.fiber_per_100g = d.fiber_per_100g

instance (it : FoodItem) (d : FoodData) : Decidable (dataMatches it d) := by
  unfold dataMatches
  infer_instance

/-- The net effect of the `setattr` loop when at least one field differs
(services.py lines 198–201): every non-identifier column ends up holding
the incoming dict's value (a field that was not set already held it), the
identifier is untouched. -/
def applyData (it : FoodItem) (d : FoodData) : FoodItem :=
  { it with
    name := d.name
    brand_owner := d.brand_owner
    protein_per_100g := d.protein_per_100g
    calories_per_100g := d.calories_per_100g
    carbs_per_100g := d.carbs_per_100g
    fat_per_100g := d.fat_per_100g
    fiber_per_100g := d.fiber_per_100g }

/-- A new row built from the `defaults` dict of `get_or_create`
(services.py lines 182–193). -/
def rowOfData (d : FoodData) : FoodItem :=
  { fdc_id := d.fdc_id
    name := d.name
    brand_owner := d.brand_owner
    protein_per_100g := d.protein_per_100g
    calories_per_100g := d.calories_per_100g
    carbs_per_100g := d.carbs_per_100g
    fat_per_100g := d.fat_per_100g
    fiber_per_100g := d.fiber_per_100g }

/-- Method `FoodCacheService.get_or_create_food_item` (services.py lines
168–206): `get_or_create` keyed on `fdc_id` — insert the row from
`defaults` when absent (`created = True`); when present, run the diff
check over the non-identifier fields and issue the one `save()` only if
some field differs, updating that row in place. Returns the resulting
item and the `created` flag. -/
def get_or_create_food_item (st : CatalogState) (d : FoodData) :
    CatalogState × FoodItem × Bool :=
  match st.items.find? (fun it => it.fdc_id == d.fdc_id) with
  | none =>
      let it := rowOfData d
      ({ items := st.items ++ [it], writes := st.writes + 1 }, it, true)
  | some it0 =>
      if dataMatches it0 d then (st, it0, false)
      else
        ({ items := st.items.map fun it =>
             if it.fdc_id == d.fdc_id then applyData it d else it
           writes := st.writes + 1 }, applyData it0 d, false)

/-- The caching loop of the view (views.py lines 45–49): each formatted
record is upserted in turn; a per-record failure is caught and the loop
continues (the embedded upsert is total, so only the success path
remains). -/
def cacheFoods (st : CatalogState) (ds : List FoodData) : CatalogState :=
  ds.foldl (fun s d => (get_or_create_food_item s d).1) st

/-! ## Food search view (src/api/views.py, FoodSearchView) -/

/-- Django's `name__icontains=query` filter: case-insensitive substring
match on the name. -/
def icontains (hay needle : String) : Bool :=
  decide (needle.toList.map Char.toLower <:+: hay.toList.map Char.toLower)

/-- Method `FoodSearchView.get_queryset` (views.py lines 29–52) over a catalog
of `FoodItem` rows. Returns, in order: the rows the view hands to the
serializer, the catalog after the request, the number of external HTTP
requests issued, and the number of catalog row writes. Queries shorter
than 2 characters return `FoodItem.objects.none()` at once; otherwise
the local `icontains` matches capped at 10 are counted, and only when
fewer than 5 does the view call `search_foods` and cache its results;
the response is the fresh `icontains` filter capped at 20. -/
def get_queryset (catalog : List FoodItem) (query : String)
    (outcome : ApiOutcome) : List FoodItem × List FoodItem × Nat × Nat :=
  if query.length < 2 then ([], catalog, 0, 0)
  else
    let local_results := (catalog.filter fun it => icontains it.name query).take 10
    let step :=
      if local_results.length < 5 then
        let sr := search_foods query outcome
        let st := cacheFoods ⟨catalog, 0⟩ sr.1
        (st.items, sr.2, st.writes)
      else (catalog, 0, 0)
    ((step.1.filter fun it => icontains it.name query).take 20,
     step.1, step.2.1, step.2.2)

/-! ## Concrete fixtures used by witnesses and counterexamples -/

/-- A concrete cached food item: 20 g protein and 165 kcal per 100 g. -/
def exChicken : FoodItem :=
  ⟨"171077", "Chicken Breast", "", 20, 165, 0, 36 / 10, 0⟩

/-- A concrete cached food item: 10 g protein and 70 kcal per 100 g. -/
def exRice : FoodItem :=
  ⟨"169756", "White Rice", "", 10, 70, 0, 0, 0⟩

/-- The empty day: no entries, both totals 0 (`DailyIntake` defaults,
models.py lines 61–62). -/
def exEmptyDay : DayState := ⟨[], 0, 0⟩

/-- A normalized record carrying the same identifier as `exChicken` but
a different protein density. -/
def exDataProtein15 : FoodData :=
  ⟨"171077", "Chicken Breast", "", 15, 165, 0, 36 / 10, 0⟩

/-- A normalized record field-for-field equal to `exChicken`. -/
def exDataSame : FoodData :=
  ⟨"171077", "Chicken Breast", "", 20, 165, 0, 36 / 10, 0⟩

/-- A raw external record whose only nutrient is protein, tagged `G`. -/
def exRawPeanut : RawFood :=
  ⟨some "42", some "peanut butter", none, [⟨"1003", some 25, "G"⟩]⟩

/-- The normalized record `exRawPeanut` formats to. -/
def exPeanutData : FoodData :=
  ⟨"42", "Peanut Butter", "", 25, 0, 0, 0, 0⟩

/-- A raw external record whose energy nutrient is tagged with the gram
unit rather than kilocalories. -/
def exRawGramEnergy : RawFood :=
  ⟨some "1", some "energy bar", none, [⟨"1008", some 5, "g"⟩]⟩

/-- A raw energy-nutrient element tagged `g` (mismatched unit). -/
def exGramEnergyNutrient : RawNutrient := ⟨"1008", some 5, "g"⟩

/-- A raw protein-nutrient element tagged `KCAL` (mismatched unit). -/
def exKcalProtein : RawNutrient := ⟨"1003", some 7, "KCAL"⟩

/-- Three catalog rows whose names contain "chicken" case-insensitively. -/
def exChickenCatalog : List FoodItem :=
  [⟨"171077", "Chicken Breast", "", 20, 165, 0, 36 / 10, 0⟩,
   ⟨"171116", "Chicken Thigh", "", 17, 209, 0, 11, 0⟩,
   ⟨"171478", "Ground Chicken", "", 17, 143, 0, 8, 0⟩]

/-- A user whose profile sets a 50 g daily protein goal. -/
def exUser50 : UserAccount := ⟨some ⟨50⟩⟩

/-- A daily intake of 25 g protein for `exUser50`. -/
def exIntake25 : DailyIntake := ⟨exUser50, 25, 400⟩

/-! ## Helper lemmas -/

/-- Replacing both consumed fields of an entry does not change its
recomputation: `recompute` overwrites them from the item and amount. -/
theorem FoodEntry.recompute_overwrite (e : FoodEntry) (p c : ℚ) :
    FoodEntry.recompute { e with protein_consumed := p, calories_consumed := c }
      = FoodEntry.recompute e := by
  simp [FoodEntry.recompute]

/-- Django's `find first row` agrees with the head of the filtered rows. -/
theorem find_eq_head_filter {α : Type} (p : α → Bool) (l : List α) :
    l.find? p = (l.filter p).head? := by
  induction l with
  | nil => rfl
  | cons a l ih =>
      by_cases h : p a
      · rw [List.find?_cons_of_pos _ h, List.filter_cons_of_pos h, List.head?_cons]
      · rw [List.find?_cons_of_neg _ h, List.filter_cons_of_neg h, ih]

/-- The full-replace update preserves the identifier column. -/
theorem applyData_fdc_id (it : FoodItem) (d : FoodData) :
    (applyData it d).fdc_id = it.fdc_id := rfl

/-- Updating the row keyed by an identifier commutes with filtering on
that identifier: the update preserves `fdc_id`. -/
theorem filter_map_upsert (d : FoodData) (l : List FoodItem) :
    (l.map fun it => if it.fdc_id == d.fdc_id then applyData it d else it).filter
        (fun it => it.fdc_id == d.fdc_id)
      = (l.filter fun it => it.fdc_id == d.fdc_id).map fun it => applyData it d := by
  induction l with
  | nil => rfl
  | cons a l ih =>
      by_cases h : a.fdc_id = d.fdc_id
      · simpa [List.filter_cons, applyData_fdc_id, h] using ih
      · simpa [List.filter_cons, applyData_fdc_id, h] using ih

/-- The full-replace update leaves the row agreeing with the incoming
record on every non-identifier field. -/
theorem dataMatches_applyData (it : FoodItem) (d : FoodData) :
    dataMatches (applyData it d) d := by
  simp [dataMatches, applyData]

/-- When the diff check finds no differing field, the update is the
identity on the row. -/
theorem applyData_of_dataMatches {it : FoodItem} {d : FoodData}
    (h : dataMatches it d) : applyData it d = it := by
  obtain ⟨h1, h2, h3, h4, h5, h6, h7⟩ := h
  cases it
  simp_all [applyData]

/-- Both caught-exception paths of `search_foods` and the short-query
guard return the empty list. -/
theorem search_foods_failure_empty (q : String) :
    (search_foods q ApiOutcome.failure).1 = [] := by
  unfold search_foods
  split
  · rfl
  · rfl

/-- Caching an empty formatted-result list writes nothing. -/
theorem cacheFoods_nil (st : CatalogState) : cacheFoods st [] = st := rfl

/-- Setting one key of the `nutrients` dict leaves the others as they
were. -/
theorem NutrientAcc.get_set_ne (acc : NutrientAcc) (k k' : NutrientKey) (v : ℚ)
    (h : k ≠ k') : (acc.set k v).get k' = acc.get k' := by
  cases k <;> cases k' <;> simp_all [NutrientAcc.set, NutrientAcc.get]

/-- One loop iteration leaves a key untouched when the element's id does
not map to it. -/
theorem processNutrient_get_of_ne (acc : NutrientAcc) (n : RawNutrient)
    (k : NutrientKey) (h : nutrient_mapping n.id ≠ some k) :
    (processNutrient acc n).get k = acc.get k := by
  cases hm : nutrient_mapping n.id with
  | none => simp [processNutrient, hm]
  | some key =>
      have hk : key ≠ k := fun he => h (by rw [hm, he])
      simp only [processNutrient, hm]
      by_cases h1 : pyUpper n.unitName = "KCAL" ∧ key = NutrientKey.calories
      · rw [if_pos h1]
        exact NutrientAcc.get_set_ne _ _ _ _ hk
      · rw [if_neg h1]
        by_cases h2 : pyUpper n.unitName = "G"
        · rw [if_pos h2]
          exact NutrientAcc.get_set_ne _ _ _ _ hk
        · rw [if_neg h2]

/-- The whole nutrient loop leaves a key untouched when no element's id
maps to it. -/
theorem foldl_processNutrient_get_absent (ns : List RawNutrient)
    (acc : NutrientAcc) (k : NutrientKey)
    (h : ∀ n ∈ ns, nutrient_mapping n.id ≠ some k) :
    (ns.foldl processNutrient acc).get k = acc.get k := by
  induction ns generalizing acc with
  | nil => rfl
  | cons n ns ih =>
      rw [List.foldl_cons,
        ih _ fun m hm => h m (List.mem_cons_of_mem _ hm),
        processNutrient_get_of_ne _ _ _ (h n (List.mem_cons_self _ _))]

/-! ## Claim theorems -/

/-- C1: the claim says totals stay equal to the entry sums after every
add *and remove*. The add path holds (`FoodEntry.save` recomputes), but
the repository has no removal path that recomputes: deleting the sole
entry of a consistent day through the ORM leaves `total_protein = 30`
over an empty entry set — the invariant the spec states is broken by the
code at every entry deletion. -/
theorem C1_orm_delete_breaks_totals_invariant :
    (FoodEntry.save exEmptyDay ⟨exChicken, 150, 0, 0⟩).totalsConsistent
    ∧ (DayState.ormDelete (FoodEntry.save exEmptyDay ⟨exChicken, 150, 0, 0⟩) 0).entries = []
    ∧ (DayState.ormDelete (FoodEntry.save exEmptyDay ⟨exChicken, 150, 0, 0⟩) 0).total_protein = 30
    ∧ ¬ (DayState.ormDelete (FoodEntry.save exEmptyDay ⟨exChicken, 150, 0, 0⟩) 0).totalsConsistent := by
  refine ⟨?_, rfl, ?_, ?_⟩
  · constructor <;>
      · simp [FoodEntry.save, FoodEntry.recompute, DayState.ormDelete,
          DayState.totalsConsistent, exChicken, exEmptyDay]
  · simp [FoodEntry.save, FoodEntry.recompute, DayState.ormDelete,
      DayState.totalsConsistent, exChicken, exEmptyDay]
    norm_num
  · simp [FoodEntry.save, FoodEntry.recompute, DayState.ormDelete,
      DayState.totalsConsistent, exChicken, exEmptyDay]

/-- C2: the claim says entry write and totals write form one atomic
unit. The source runs `super().save()` and `daily_intake.save()` as two
separate writes with no transaction, so when the totals write fails the
already-committed entry stays visible with the pre-mutation totals: one
entry on the day, `total_protein` still 0, the two in disagreement. -/
theorem C2_totals_write_failure_leaves_visible_entry :
    (FoodEntry.saveTotalsWriteFails exEmptyDay ⟨exChicken, 150, 0, 0⟩).entries.length = 1
    ∧ (FoodEntry.saveTotalsWriteFails exEmptyDay ⟨exChicken, 150, 0, 0⟩).total_protein = 0
    ∧ (FoodEntry.saveTotalsWriteFails exEmptyDay ⟨exChicken, 150, 0, 0⟩).total_calories = 0
    ∧ ¬ (FoodEntry.saveTotalsWriteFails exEmptyDay ⟨exChicken, 150, 0, 0⟩).totalsConsistent := by
  refine ⟨rfl, rfl, rfl, ?_⟩
  simp [FoodEntry.saveTotalsWriteFails, FoodEntry.recompute,
    DayState.totalsConsistent, exChicken, exEmptyDay]
  norm_num

/-- C4: every entry written by `FoodEntry.save` carries
`protein_consumed = protein_per_100g × amount / 100` and
`calories_consumed = calories_per_100g × amount / 100`, recomputed at
write time from the item's current densities, and whatever consumed
values the caller supplied are ignored. -/
theorem C4_consumed_recomputed_at_write (s : DayState) (e : FoodEntry) :
    (FoodEntry.save s e).entries = e.recompute :: s.entries
    ∧ e.recompute.protein_consumed
        = e.food_item.protein_per_100g * e.amount_grams / 100
    ∧ e.recompute.calories_consumed
        = e.food_item.calories_per_100g * e.amount_grams / 100
    ∧ ∀ p c : ℚ,
        FoodEntry.save s { e with protein_consumed := p, calories_consumed := c }
          = FoodEntry.save s e := by
  refine ⟨rfl, rfl, rfl, fun p c => ?_⟩
  simp [FoodEntry.save, FoodEntry.recompute_overwrite]

/-- C5 counterexample: the claim says every `amount_grams > 0` passes
validation, but the source validator is `MinValueValidator(0.1)`
(models.py line 88): the positive amount 1/20 = 0.05 g is rejected and
the logging operation refuses it with the state unchanged. -/
theorem C5_counterexample_positive_amount_rejected :
    (0 : ℚ) < 1 / 20
    ∧ amount_grams_ok (1 / 20) = false
    ∧ log_entry exEmptyDay exChicken (1 / 20) = (none, exEmptyDay) := by
  have hv : ¬ (1 / 10 : ℚ) ≤ 1 / 20 := by norm_num
  refine ⟨by norm_num, ?_, ?_⟩
  · simp only [amount_grams_ok, minValueValidator]
    exact decide_eq_false hv
  · simp only [log_entry, amount_grams_ok, minValueValidator, decide_eq_true_eq]
    rw [if_neg hv]

/-- C5 amended: logging validates `amount_grams ≥ 0.1` — every attempt
with `amount_grams < 0.1` (in particular every amount ≤ 0) is rejected
before any write with no state change, and every `amount_grams ≥ 0.1`
passes validation and writes exactly one new entry. -/
theorem C5_amended_validation_threshold (s : DayState) (item : FoodItem)
    (amount : ℚ) :
    (amount < 1 / 10 → log_entry s item amount = (none, s))
    ∧ (1 / 10 ≤ amount →
        (log_entry s item amount).1.isSome = true
        ∧ (log_entry s item amount).2.entries.length = s.entries.length + 1) := by
  constructor
  · intro h
    have hv : ¬ (1 / 10 : ℚ) ≤ amount := not_le.mpr h
    simp only [log_entry, amount_grams_ok, minValueValidator, decide_eq_true_eq]
    rw [if_neg hv]
  · intro h
    simp only [log_entry, amount_grams_ok, minValueValidator, decide_eq_true_eq]
    rw [if_pos h]
    exact ⟨rfl, by simp [FoodEntry.save]⟩

/-- C5 amended, instantiated: 0.05 g is rejected with no state change
and 150 g is accepted, appending one entry to the empty day. -/
theorem C5_amended_validation_threshold_witness :
    log_entry exEmptyDay exChicken (1 / 20) = (none, exEmptyDay)
    ∧ (log_entry exEmptyDay exChicken 150).1.isSome = true
    ∧ (log_entry exEmptyDay exChicken 150).2.entries.length
        = exEmptyDay.entries.length + 1 :=
  ⟨(C5_amended_validation_threshold exEmptyDay exChicken (1 / 20)).1 (by norm_num),
   ((C5_amended_validation_threshold exEmptyDay exChicken 150).2 (by norm_num)).1,
   ((C5_amended_validation_threshold exEmptyDay exChicken 150).2 (by norm_num)).2⟩

/-- C6: `protein_percentage` is 0 when the user has no profile, 0 when
the (non-negative) daily goal is 0, and `total_protein / goal × 100`
otherwise — exactly the source's guard at models.py lines 74–77. -/
theorem C6_protein_percentage_formula (d : DailyIntake) :
    (d.user.userprofile = none → d.protein_percentage = 0)
    ∧ ∀ p : UserProfile, d.user.userprofile = some p →
        0 ≤ p.daily_protein_goal →
        ((p.daily_protein_goal = 0 → d.protein_percentage = 0)
         ∧ (p.daily_protein_goal ≠ 0 →
             d.protein_percentage
               = d.total_protein / p.daily_protein_goal * 100)) := by
  constructor
  · intro h
    simp [DailyIntake.protein_percentage, h]
  · intro p hp hge
    constructor
    · intro h0
      simp [DailyIntake.protein_percentage, hp, h0]
    · intro hne
      have hpos : p.daily_protein_goal > 0 := lt_of_le_of_ne hge (Ne.symm hne)
      simp [DailyIntake.protein_percentage, hp, hpos]

/-- C6 instantiated: a 25 g intake against a 50 g goal reports
`25 / 50 × 100`. -/
theorem C6_protein_percentage_formula_witness :
    (0 : ℚ) ≤ 50
    ∧ exIntake25.protein_percentage = exIntake25.total_protein / 50 * 100 :=
  ⟨by norm_num,
   (((C6_protein_percentage_formula exIntake25).2 ⟨50⟩ rfl (by norm_num)).2 (by norm_num))⟩

/-- Truncation to `n` code points never exceeds length `n`. -/
theorem pySlice_length_le (s : String) (n : Nat) : (pySlice s n).length ≤ n := by
  show (s.toList.take n).length ≤ n
  rw [List.length_take]
  exact min_le_left _ _

/-- C3: upserting a normalized record over an existing row with the same
external identifier yields `created = False` and exactly one row with
that identifier whose non-identifier fields all equal the record's
(full-replace); and when the existing row already equals the record, no
write at all is performed — the second identical upsert is a no-op. -/
theorem C3_upsert_full_replace_idempotent (st : CatalogState) (d : FoodData)
    (it0 : FoodItem)
    (hfound : st.items.filter (fun it => it.fdc_id == d.fdc_id) = [it0]) :
    (get_or_create_food_item st d).2.2 = false
    ∧ (get_or_create_food_item st d).1.items.filter
        (fun it => it.fdc_id == d.fdc_id) = [applyData it0 d]
    ∧ dataMatches (applyData it0 d) d
    ∧ (dataMatches it0 d → (get_or_create_food_item st d).1 = st) := by
  have hfind : st.items.find? (fun it => it.fdc_id == d.fdc_id) = some it0 := by
    rw [find_eq_head_filter, hfound]
    rfl
  by_cases hm : dataMatches it0 d
  · have happ : applyData it0 d = it0 := applyData_of_dataMatches hm
    refine ⟨?_, ?_, dataMatches_applyData it0 d, fun _ => ?_⟩ <;>
      simp [get_or_create_food_item, hfind, hm, happ, hfound]
  · refine ⟨?_, ?_, dataMatches_applyData it0 d, fun hc => absurd hc hm⟩
    · simp [get_or_create_food_item, hfind, hm]
    · simp only [get_or_create_food_item, hfind]
      rw [if_neg hm]
      show (st.items.map fun it =>
          if it.fdc_id == d.fdc_id then applyData it d else it).filter
            (fun it => it.fdc_id == d.fdc_id) = [applyData it0 d]
      rw [filter_map_upsert, hfound]
      rfl

/-- C3, instantiated at the spec scenario: over a catalog holding the
protein-10 variant... here, upserting a record with protein 15 over the
cached protein-20 row full-replaces it with `created = False`, and
re-upserting the identical record performs no write. -/
theorem C3_upsert_full_replace_idempotent_witness :
    ([exChicken].filter (fun it => it.fdc_id == exDataProtein15.fdc_id)
        = [exChicken])
    ∧ (get_or_create_food_item ⟨[exChicken], 0⟩ exDataProtein15).2.2 = false
    ∧ (get_or_create_food_item ⟨[exChicken], 0⟩ exDataProtein15).1.items.filter
        (fun it => it.fdc_id == exDataProtein15.fdc_id)
        = [applyData exChicken exDataProtein15]
    ∧ (get_or_create_food_item ⟨[exChicken], 0⟩ exDataSame).1
        = (⟨[exChicken], 0⟩ : CatalogState) :=
  ⟨rfl,
   (C3_upsert_full_replace_idempotent ⟨[exChicken], 0⟩ exDataProtein15 exChicken rfl).1,
   (C3_upsert_full_replace_idempotent ⟨[exChicken], 0⟩ exDataProtein15 exChicken rfl).2.1,
   (C3_upsert_full_replace_idempotent ⟨[exChicken], 0⟩ exDataSame exChicken rfl).2.2.2
     ⟨rfl, rfl, rfl, rfl, rfl, rfl, rfl⟩⟩

/-- C7: when the external nutrition source is unreachable or returns a
malformed payload, the search still returns normally — the serialized
rows are exactly the locally matching catalog rows (capped at 20), the
catalog is unchanged (no write), and no error escapes: every exception
path of the source is a caught branch returning the local fallback. -/
theorem C7_external_failure_falls_back_to_local (catalog : List FoodItem)
    (query : String) (h : 2 ≤ query.length) :
    (get_queryset catalog query ApiOutcome.failure).1
        = (catalog.filter fun it => icontains it.name query).take 20
    ∧ (get_queryset catalog query ApiOutcome.failure).2.1 = catalog
    ∧ (get_queryset catalog query ApiOutcome.failure).2.2.2 = 0 := by
  have hq : ¬ query.length < 2 := not_lt.mpr h
  refine ⟨?_, ?_, ?_⟩ <;>
    · simp only [get_queryset, search_foods_failure_empty, cacheFoods_nil]
      rw [if_neg hq]
      split <;> rfl

/-- C7, instantiated at the spec scenario: three local rows match
"chicken", the provider is unreachable, and the caller receives exactly
those three rows with the catalog untouched and no write. -/
theorem C7_external_failure_falls_back_to_local_witness :
    (2 ≤ ("chicken" : String).length)
    ∧ (get_queryset exChickenCatalog "chicken" ApiOutcome.failure).1
        = (exChickenCatalog.filter fun it => icontains it.name "chicken").take 20
    ∧ (get_queryset exChickenCatalog "chicken" ApiOutcome.failure).2.1
        = exChickenCatalog
    ∧ (get_queryset exChickenCatalog "chicken" ApiOutcome.failure).2.2.2 = 0 :=
  ⟨by decide,
   (C7_external_failure_falls_back_to_local exChickenCatalog "chicken" (by decide)).1,
   (C7_external_failure_falls_back_to_local exChickenCatalog "chicken" (by decide)).2.1,
   (C7_external_failure_falls_back_to_local exChickenCatalog "chicken" (by decide)).2.2⟩

/-- C10: a query of fewer than 2 characters short-circuits: the view
returns the empty row set with the catalog unchanged, zero external
requests and zero writes; and independently, the service guard on the
stripped query returns the empty list with zero external requests. -/
theorem C10_short_query_no_call_no_write (catalog : List FoodItem)
    (query : String) (outcome : ApiOutcome) :
    (query.length < 2 → get_queryset catalog query outcome = ([], catalog, 0, 0))
    ∧ ((pyStrip query).length < 2 → search_foods query outcome = ([], 0)) := by
  constructor
  · intro h
    simp only [get_queryset]
    rw [if_pos h]
  · intro h
    simp only [search_foods]
    rw [if_pos h]

/-- C10, instantiated: the one-character query "a" yields no rows, no
external request, and no write, through both the view and the service. -/
theorem C10_short_query_no_call_no_write_witness :
    get_queryset exChickenCatalog "a" ApiOutcome.failure
        = ([], exChickenCatalog, 0, 0)
    ∧ search_foods "a" ApiOutcome.failure = ([], 0) :=
  ⟨(C10_short_query_no_call_no_write exChickenCatalog "a" ApiOutcome.failure).1
     (by decide),
   (C10_short_query_no_call_no_write exChickenCatalog "a" ApiOutcome.failure).2
     (by decide)⟩

/-- C8: malformed raw records (absent external identifier or absent
name) are dropped silently — formatted to `None` and excluded without
aborting the remaining records — and every record that does come back
has its name truncated to 200, its brand defaulted to the empty string
when absent, and each of the five nutrient fields defaulted to 0 when no
raw nutrient entry maps to it. -/
theorem C8_normalization_best_effort :
    (∀ food : RawFood, food.fdcId = none ∨ food.description = none →
        formatFoodData food = none)
    ∧ (∀ (r : RawFood) (rs : List RawFood), formatFoodData r = none →
        (r :: rs).filterMap formatFoodData = rs.filterMap formatFoodData)
    ∧ (∀ (food : RawFood) (fd : FoodData), formatFoodData food = some fd →
        fd.name.length ≤ 200
        ∧ (food.brandOwner = none → fd.brand_owner = "")
        ∧ ((∀ n ∈ food.foodNutrients, nutrient_mapping n.id ≠ some NutrientKey.protein) →
            fd.protein_per_100g = 0)
        ∧ ((∀ n ∈ food.foodNutrients, nutrient_mapping n.id ≠ some NutrientKey.calories) →
            fd.calories_per_100g = 0)
        ∧ ((∀ n ∈ food.foodNutrients, nutrient_mapping n.id ≠ some NutrientKey.carbs) →
            fd.carbs_per_100g = 0)
        ∧ ((∀ n ∈ food.foodNutrients, nutrient_mapping n.id ≠ some NutrientKey.fat) →
            fd.fat_per_100g = 0)
        ∧ ((∀ n ∈ food.foodNutrients, nutrient_mapping n.id ≠ some NutrientKey.fiber) →
            fd.fiber_per_100g = 0)) := by
  refine ⟨?_, ?_, ?_⟩
  · intro food hcase
    rcases hcase with h | h
    · simp [formatFoodData, h]
    · have hname : pyTitle (food.description.getD "") = "" := by
        rw [h]
        rfl
      simp [formatFoodData, hname]
  · intro r rs h
    simp [List.filterMap_cons, h]
  · intro food fd hsome
    simp only [formatFoodData] at hsome
    by_cases hdrop : food.fdcId.getD "" = ""
        ∨ pyTitle (food.description.getD "") = ""
    · rw [if_pos hdrop] at hsome
      exact absurd hsome (by simp)
    · rw [if_neg hdrop] at hsome
      have hfd := Option.some.inj hsome
      refine ⟨?_, ?_, ?_, ?_, ?_, ?_, ?_⟩
      · rw [← hfd]
        exact pySlice_length_le _ 200
      · intro hb
        rw [← hfd]
        simp [hb]
      · intro habs
        rw [← hfd]
        show ((food.foodNutrients.foldl processNutrient NutrientAcc.empty).get _).getD 0 = 0
        rw [foldl_processNutrient_get_absent _ _ _ habs]
        rfl
      · intro habs
        rw [← hfd]
        show ((food.foodNutrients.foldl processNutrient NutrientAcc.empty).get _).getD 0 = 0
        rw [foldl_processNutrient_get_absent _ _ _ habs]
        rfl
      · intro habs
        rw [← hfd]
        show ((food.foodNutrients.foldl processNutrient NutrientAcc.empty).get _).getD 0 = 0
        rw [foldl_processNutrient_get_absent _ _ _ habs]
        rfl
      · intro habs
        rw [← hfd]
        show ((food.foodNutrients.foldl processNutrient NutrientAcc.empty).get _).getD 0 = 0
        rw [foldl_processNutrient_get_absent _ _ _ habs]
        rfl
      · intro habs
        rw [← hfd]
        show ((food.foodNutrients.foldl processNutrient NutrientAcc.empty).get _).getD 0 = 0
        rw [foldl_processNutrient_get_absent _ _ _ habs]
        rfl

/-- C8, instantiated: a record with no identifier is dropped without
aborting the record after it, and the surviving record keeps a bounded
name, an empty brand, and a zero value for the unlisted calories field. -/
theorem C8_normalization_best_effort_witness :
    formatFoodData ⟨none, some "bar", none, []⟩ = none
    ∧ ([⟨none, some "bar", none, []⟩, exRawPeanut] : List RawFood).filterMap
        formatFoodData = [exRawPeanut].filterMap formatFoodData
    ∧ exPeanutData.name.length ≤ 200
    ∧ exPeanutData.brand_owner = ""
    ∧ exPeanutData.calories_per_100g = 0 :=
  ⟨C8_normalization_best_effort.1 ⟨none, some "bar", none, []⟩ (Or.inl rfl),
   C8_normalization_best_effort.2.1 ⟨none, some "bar", none, []⟩ [exRawPeanut]
     (C8_normalization_best_effort.1 ⟨none, some "bar", none, []⟩ (Or.inl rfl)),
   (C8_normalization_best_effort.2.2 exRawPeanut exPeanutData rfl).1,
   (C8_normalization_best_effort.2.2 exRawPeanut exPeanutData rfl).2.1 rfl,
   (C8_normalization_best_effort.2.2 exRawPeanut exPeanutData rfl).2.2.2.1
     (by decide)⟩

/-- C9 counterexample: the claim says a nutrient value is accepted only
under its expected unit — kilocalories for energy — and that a
mismatched unit is treated as absent (field defaults to 0). But the
source's `elif unit == 'G'` branch (services.py line 144) accepts a
gram-tagged *energy* value: a raw record whose only nutrient is energy
`(id 1008)` tagged `g` with amount 5 normalizes to `calories_per_100g
= 5`, not 0. -/
theorem C9_counterexample_gram_tagged_energy_accepted :
    (formatFoodData exRawGramEnergy).map FoodData.calories_per_100g = some 5
    ∧ (5 : ℚ) ≠ 0 := by
  refine ⟨rfl, by norm_num⟩

/-- C9 amended: a mapped raw nutrient value is accepted whenever it is
tagged with the gram unit — for every mapped nutrient, energy included —
and additionally when tagged kilocalories for the energy nutrient; any
other unit tag leaves the dict untouched, so the field defaults to 0. -/
theorem C9_amended_unit_gate (acc : NutrientAcc) (n : RawNutrient)
    (k : NutrientKey) (hmap : nutrient_mapping n.id = some k) :
    (pyUpper n.unitName = "G" →
        processNutrient acc n = acc.set k (n.amount.getD 0))
    ∧ (pyUpper n.unitName = "KCAL" → k = NutrientKey.calories →
        processNutrient acc n = acc.set k (n.amount.getD 0))
    ∧ (pyUpper n.unitName ≠ "G" →
        ¬ (pyUpper n.unitName = "KCAL" ∧ k = NutrientKey.calories) →
        processNutrient acc n = acc) := by
  simp only [processNutrient, hmap]
  refine ⟨?_, ?_, ?_⟩
  · intro hg
    by_cases h1 : pyUpper n.unitName = "KCAL" ∧ k = NutrientKey.calories
    · obtain ⟨h1a, h1b⟩ := h1
      rw [hg] at h1a
      exact absurd h1a (by decide)
    · rw [if_neg h1, if_pos hg]
  · intro hk hc
    rw [if_pos ⟨hk, hc⟩]
  · intro hg hkc
    rw [if_neg hkc, if_neg hg]

/-- C9 amended, instantiated: the gram-tagged energy element is stored
into the calories key, and a kilocalorie-tagged protein element leaves
the dict untouched. -/
theorem C9_amended_unit_gate_witness :
    processNutrient NutrientAcc.empty exGramEnergyNutrient
        = NutrientAcc.empty.set NutrientKey.calories 5
    ∧ processNutrient NutrientAcc.empty exKcalProtein = NutrientAcc.empty :=
  ⟨(C9_amended_unit_gate NutrientAcc.empty exGramEnergyNutrient
      NutrientKey.calories rfl).1 (by decide),
   (C9_amended_unit_gate NutrientAcc.empty exKcalProtein
      NutrientKey.protein rfl).2.2 (by decide) (by decide)⟩
